import Mathlib

/-!
Shallow embedding of the trade-offer publication reconciler
(`TradesService` from the bot application) and proofs of its
specification claims.

Promises are modelled as `Except` values: a resolved promise is `.ok`,
a rejected promise is `.error`.  The `pthen` / `pcatch` combinators
mirror JavaScript `Promise.then` / `Promise.catch` chains.  The session
engine (steam-tradeoffer-manager) is modelled by an environment record
supplying the outcome of each engine call; the durable poll-data store
(`pollData.sent`, `pollData.received`, `pollData.offerData`) is modelled
with association lists keyed by offer id.
-/

/-- Steam trade-offer states with their numeric enum values
(SteamUser.ETradeOfferState / SteamTradeOfferManager.ETradeOfferState). -/
inductive ETradeOfferState where
  | Invalid
  | Active
  | Accepted
  | Countered
  | Expired
  | Canceled
  | Declined
  | InvalidItems
  | CreatedNeedsConfirmation
  | CanceledBySecondFactor
  | InEscrow
deriving DecidableEq, Repr

/-- The numeric value of each enum member, as in the Steam enum. -/
def ETradeOfferState.toNat : ETradeOfferState → Nat
  | .Invalid => 1
  | .Active => 2
  | .Accepted => 3
  | .Countered => 4
  | .Expired => 5
  | .Canceled => 6
  | .Declined => 7
  | .InvalidItems => 8
  | .CreatedNeedsConfirmation => 9
  | .CanceledBySecondFactor => 10
  | .InEscrow => 11

/-- JavaScript truthiness of an `ETradeOfferState | null` value: `null` is
falsy, a number is falsy exactly when it is `0`.  (Models the
`if (oldState)` test in `publishOffer`.) -/
def jsTruthyState : Option ETradeOfferState → Bool
  | none => false
  | some s => s.toNat != 0

/-- An economy item; the reconciler never inspects items, it only passes
them through and counts `itemsToGive`. -/
structure EconItem where
  appid : Nat
  contextid : String
  assetid : String
deriving DecidableEq, Repr

/-- A SteamID; the mapper only calls `getSteamID64()`. -/
structure SteamID where
  getSteamID64 : String
deriving DecidableEq, Repr

/-- A JavaScript `Date`; `getTime` is milliseconds since the epoch. -/
structure JsDate where
  getTime : Int
deriving DecidableEq, Repr

/-- `Math.floor(d.getTime() / 1000)`: floor division of the millisecond
timestamp by 1000. -/
def epochSeconds (d : JsDate) : Int :=
  Int.fdiv d.getTime 1000

/-- The raw trade offer object handed to the service by
steam-tradeoffer-manager (the fields `TradesService` reads). -/
structure TradeOfferRaw where
  partner : SteamID
  id : String
  message : String
  state : ETradeOfferState
  itemsToGive : List EconItem
  itemsToReceive : List EconItem
  isGlitched : Bool
  isOurOffer : Bool
  created : JsDate
  updated : JsDate
  expires : JsDate
  tradeID : Option String
  fromRealTimeTrade : Bool
  confirmationMethod : Nat
  escrowEnds : Option JsDate
deriving DecidableEq, Repr

/-- The projected offer snapshot published on the outward channel
(`TradeOffer` from bot-data, as produced by `mapOffer`). -/
structure TradeOfferMapped where
  partner : String
  id : String
  message : String
  state : ETradeOfferState
  itemsToGive : List EconItem
  itemsToReceive : List EconItem
  isGlitched : Bool
  isOurOffer : Bool
  createdAt : Int
  updatedAt : Int
  expiresAt : Int
  tradeID : Option String
  fromRealTimeTrade : Bool
  confirmationMethod : Nat
  escrowEndsAt : Option Int
deriving DecidableEq, Repr

/-- `TradesService.mapOffer`: projects a raw offer to the published view. -/
def mapOffer (offer : TradeOfferRaw) : TradeOfferMapped :=
  { partner := offer.partner.getSteamID64
    id := offer.id
    message := offer.message
    state := offer.state
    itemsToGive := offer.itemsToGive
    itemsToReceive := offer.itemsToReceive
    isGlitched := offer.isGlitched
    isOurOffer := offer.isOurOffer
    createdAt := epochSeconds offer.created
    updatedAt := epochSeconds offer.updated
    expiresAt := epochSeconds offer.expires
    tradeID := offer.tradeID
    fromRealTimeTrade := offer.fromRealTimeTrade
    confirmationMethod := offer.confirmationMethod
    escrowEndsAt :=
      match offer.escrowEnds with
      | none => none
      | some d => some (epochSeconds d) }

/-- An event submitted to the outward channel by `publishOffer`
(topics trades.received / trades.sent / trades.changed). -/
inductive TradeEvent where
  | received (offer : TradeOfferMapped)
  | sent (offer : TradeOfferMapped)
  | changed (offer : TradeOfferMapped) (oldState : Option ETradeOfferState)
deriving DecidableEq, Repr

/-- The event selection logic of `publishOffer`'s inner `publish`
closure, branch for branch. -/
def classify (offer : TradeOfferRaw) (oldState : Option ETradeOfferState) :
    TradeEvent :=
  if jsTruthyState oldState then
    .changed (mapOffer offer) oldState
  else if !offer.isOurOffer then
    if offer.state = .Active then
      .received (mapOffer offer)
    else
      .changed (mapOffer offer) none
  else if offer.state = .CreatedNeedsConfirmation then
    .sent (mapOffer offer)
  else if offer.state = .Active && offer.itemsToGive.length == 0 then
    .sent (mapOffer offer)
  else
    .changed (mapOffer offer) none

/-- `Promise.then` on the Except model of promises. -/
def pthen (p : Except ε α) (f : α → Except ε β) : Except ε β :=
  match p with
  | .ok a => f a
  | .error e => .error e

/-- `Promise.catch`: a rejected promise is replaced by the handler's
result; a resolved promise is unchanged. -/
def pcatch (p : Except ε α) (h : ε → Except ε α) : Except ε α :=
  match p with
  | .ok a => .ok a
  | .error e => h e

/-- A rejection value: an error from the engine callback API
(`err.message`, optional `err.eresult`). -/
structure SteamError where
  message : String
  eresult : Option Nat
deriving DecidableEq, Repr

/-- Typed errors the service rejects with (NestJS exceptions, the
EResult exception, or the raw engine error passed through). -/
inductive ApiError where
  | badRequest (msg : String)
  | notFound (msg : String)
  | eresultErr (msg : String) (code : Nat)
  | steam (e : SteamError)
deriving DecidableEq, Repr

/-- Per-offer data object stored in `pollData.offerData` (only the
`published` key is used by this service). -/
structure TradeOfferData where
  published : Option ETradeOfferState
deriving DecidableEq, Repr

/-- Association-list lookup, modelling `obj[key]` on a JS object. -/
def alookup {α : Type} (l : List (String × α)) (k : String) : Option α :=
  match l with
  | [] => none
  | (k2, v) :: t => if k2 = k then some v else alookup t k

/-- The `pollData.offerData` map, offer id to data object. -/
abbrev OfferDataMap := List (String × TradeOfferData)

/-- `offer.data('published', state)`: set the `published` key of the
offer's data object, creating the object if absent. -/
def setPublished (l : OfferDataMap) (k : String) (s : ETradeOfferState) :
    OfferDataMap :=
  match l with
  | [] => [(k, ⟨some s⟩)]
  | (k2, v) :: t =>
    if k2 = k then (k2, { v with published := some s }) :: t
    else (k2, v) :: setPublished t k s

/-- `offer.data('published')` / `pollData.offerData[id]?.published ?? null`:
the last-published marker for an offer id. -/
def markerOf (l : OfferDataMap) (k : String) : Option ETradeOfferState :=
  match alookup l k with
  | none => none
  | some d => d.published

/-- The manager's durable poll data: state by id for sent and received
offers, plus the per-offer data objects. -/
structure PollData where
  sent : List (String × ETradeOfferState)
  received : List (String × ETradeOfferState)
  offerData : OfferDataMap
deriving DecidableEq, Repr

/-- `pollData.sent[id] ?? pollData.received[id] ?? null`. -/
def currentStateOf (pd : PollData) (id : String) : Option ETradeOfferState :=
  match alookup pd.sent id with
  | some s => some s
  | none => alookup pd.received id

/-- Outcome record of one `publishOffer` call: the offer-data store
after the call, the event submitted to the outward channel, and whether
the channel confirmed the publish. -/
structure PublishResult where
  offerData : OfferDataMap
  attempted : TradeEvent
  succeeded : Bool
deriving DecidableEq, Repr

/-- `eventsService.publish`: the outward channel either accepts the
event or rejects; `pubOk` is the channel's behavior for this call. -/
def eventsPublish (pubOk : Bool) : Except ApiError Unit :=
  if pubOk then .ok () else .error (.steam ⟨"publish failed", none⟩)

/-- `TradesService.publishOffer`: classify the offer, publish the event,
and only on publish success write the marker (`offer.data('published',
offer.state)`); a publish failure is caught and logged, so the returned
promise always resolves. -/
def publishOffer (pubOk : Bool) (st : OfferDataMap) (offer : TradeOfferRaw)
    (oldState : Option ETradeOfferState) : Except ApiError PublishResult :=
  let ev := classify offer oldState
  pcatch
    (pthen (eventsPublish pubOk) (fun _ =>
      .ok ⟨setPublished st offer.id offer.state, ev, true⟩))
    (fun _ => .ok ⟨st, ev, false⟩)

/-- Environment supplied by the session engine: the outcome of
`manager.getOffer(id, cb)` for each id, and whether the outward channel
accepts the publish for a given offer id. -/
structure EngineEnv where
  getOffer : String → Except SteamError TradeOfferRaw
  pubOk : String → Bool

/-- `TradesService._getTrade`: wraps `manager.getOffer`, rejecting with
`BadRequestException('Trade offer not found')` when the engine reports
`NoMatch`, and with the raw engine error otherwise. -/
def getTradeInternal (env : EngineEnv) (id : String) :
    Except ApiError TradeOfferRaw :=
  match env.getOffer id with
  | .error e =>
    if e.message = "NoMatch" then .error (.badRequest "Trade offer not found")
    else .error (.steam e)
  | .ok offer => .ok offer

/-- Outcome record of one `ensureOfferPublished` call: the offer-data
store after the call, whether a full offer fetch was performed, the
event submitted to the channel if any, and whether it was published. -/
structure EnsureResult where
  offerData : OfferDataMap
  fetched : Bool
  attempted : Option TradeEvent
  published : Bool
deriving DecidableEq, Repr

/-- `TradesService.ensureOfferPublished`, the sweep-queue worker:
fast-path return when the cheap poll-data state equals the stored
marker; otherwise fetch the full offer (which may reject), re-check the
marker, and publish through `publishOffer`. -/
def ensureOfferPublished (env : EngineEnv) (pd : PollData) (id : String) :
    Except ApiError EnsureResult :=
  let currentState := currentStateOf pd id
  let fastPath : Bool :=
    match currentState with
    | none => false
    | some cs =>
      match markerOf pd.offerData id with
      | none => false
      | some ps => cs = ps
  if fastPath then
    .ok ⟨pd.offerData, false, none, false⟩
  else
    pthen (getTradeInternal env id) (fun offer =>
      let publishedState := markerOf pd.offerData offer.id
      if some offer.state = publishedState then
        .ok ⟨pd.offerData, true, none, false⟩
      else
        pthen (publishOffer (env.pubOk offer.id) pd.offerData offer
            publishedState)
          (fun r => .ok ⟨r.offerData, true, some r.attempted, r.succeeded⟩))

/-- The `newOffer` handler wired in the constructor:
`publishOffer(offer, null)`. -/
def onNewOffer (pubOk : Bool) (st : OfferDataMap) (offer : TradeOfferRaw) :
    Except ApiError PublishResult :=
  publishOffer pubOk st offer none

/-- The `sentOfferChanged` handler wired in the constructor:
`publishOffer(offer, oldState)`. -/
def onSentOfferChanged (pubOk : Bool) (st : OfferDataMap)
    (offer : TradeOfferRaw) (oldState : ETradeOfferState) :
    Except ApiError PublishResult :=
  publishOffer pubOk st offer (some oldState)

/-- The `receivedOfferChanged` handler wired in the constructor:
`publishOffer(offer, oldState)`. -/
def onReceivedOfferChanged (pubOk : Bool) (st : OfferDataMap)
    (offer : TradeOfferRaw) (oldState : ETradeOfferState) :
    Except ApiError PublishResult :=
  publishOffer pubOk st offer (some oldState)

/-- One task pushed onto the `ensureOfferPublishedQueue`
(`EnsureOfferPublishedTask`). -/
structure EnsureOfferPublishedTask where
  id : String
deriving DecidableEq, Repr

/-- The ids enumerated by the `ensurePollData` timer callback:
`Object.keys(pollData.sent).concat(Object.keys(pollData.received))`. -/
def sweepIds (pd : PollData) : List String :=
  pd.sent.map Prod.fst ++ pd.received.map Prod.fst

/-- State of the debounce scheduler: the set of timers currently pending
in the runtime (as a list of timer ids), the handle stored in
`ensurePollDataTimeout` (stale after the timer fires, as in the source,
which never nulls it out), and a fresh-id counter. -/
structure SchedulerState where
  pending : List Nat
  handle : Option Nat
  nextId : Nat
deriving DecidableEq, Repr

/-- The scheduler before any poll cycle completes:
`ensurePollDataTimeout = null`, no timer pending. -/
def initScheduler : SchedulerState :=
  ⟨[], none, 0⟩

/-- `TradesService.ensurePollData`: clear the stored timeout if any
(`clearTimeout` removes it from the pending set; a no-op for a fired
timer), then start a fresh 1000 ms timer and store its handle. -/
def ensurePollData (s : SchedulerState) : SchedulerState :=
  let cleared :=
    match s.handle with
    | none => s.pending
    | some h => s.pending.filter (fun t => t ≠ h)
  ⟨cleared ++ [s.nextId], some s.nextId, s.nextId + 1⟩

/-- `ensurePollData` applied `n` times (n poll cycles completing within
the quiet interval, so no timer fires in between). -/
def ensurePollDataN (n : Nat) (s : SchedulerState) : SchedulerState :=
  match n with
  | 0 => s
  | n + 1 => ensurePollDataN n (ensurePollData s)

/-- Expiry of timer `t`: only a pending timer can fire; it is removed
from the pending set and its callback enqueues one task per id in
`sweepIds` (the stored handle is left stale, as in the source). -/
def fireTimer (pd : PollData) (s : SchedulerState) (t : Nat) :
    Option (SchedulerState × List EnsureOfferPublishedTask) :=
  if t ∈ s.pending then
    some (⟨s.pending.filter (fun u => u ≠ t), s.handle, s.nextId⟩,
      (sweepIds pd).map (fun id => ⟨id⟩))
  else
    none

/-- `ensureOfferPublishedQueue.push(task).catch(err => ...)`: the promise
returned by the queue resolves/rejects with the worker's outcome, and
the attached catch handler logs and swallows a rejection, so the guarded
promise always resolves. -/
def sweepTask (env : EngineEnv) (pd : PollData) (id : String) :
    Except ApiError (Option EnsureResult) :=
  pcatch (pthen (ensureOfferPublished env pd id) (fun r => .ok (some r)))
    (fun _ => .ok none)

/-- The serialized sweep queue (fastq with concurrency 1) draining a list
of tasks in order: each worker outcome is recorded, and the offer-data
store is threaded from one task to the next. -/
def processTasks (env : EngineEnv) (pd : PollData) :
    List String → PollData × List (Option EnsureResult)
  | [] => (pd, [])
  | id :: rest =>
    match sweepTask env pd id with
    | .ok r =>
      let pd2 : PollData :=
        match r with
        | some res => { pd with offerData := res.offerData }
        | none => pd
      let (pdf, outs) := processTasks env pd2 rest
      (pdf, r :: outs)
    | .error _ =>
      let (pdf, outs) := processTasks env pd rest
      (pdf, none :: outs)

/-- `TradesService.getTrade`: `_getTrade` with a logging catch that
rethrows, then `mapOffer`. -/
def getTrade (env : EngineEnv) (id : String) : Except ApiError TradeOfferMapped :=
  pthen (pcatch (getTradeInternal env id) (fun e => .error e))
    (fun offer => .ok (mapOffer offer))

/-- Environment for `createTrade`: the offer object built by
`manager.createOffer` plus token/message/items, and the outcome of
`offer.send`. -/
structure CreateEnv where
  builtOffer : TradeOfferRaw
  sendErr : Option SteamError

/-- `TradesService.createTrade`: reject with `BadRequestException` for an
empty offer, `EResultException` when the error carries an eresult, the
raw error otherwise; on success resolve with the mapped offer.  The
final logging catch rethrows. -/
def createTrade (env : CreateEnv) : Except ApiError TradeOfferMapped :=
  let inner : Except ApiError TradeOfferMapped :=
    match env.sendErr with
    | some e =>
      if e.message = "Cannot send an empty trade offer" then
        .error (.badRequest "Cannot send an empty trade offer")
      else
        match e.eresult with
        | some code => .error (.eresultErr e.message code)
        | none => .error (.steam e)
    | none => .ok (mapOffer env.builtOffer)
  pcatch (pthen inner (fun offer => .ok offer)) (fun e => .error e)

/-- `TradesService.acceptConfirmation`: the inner promise rejects with
`NotFoundException('Confirmation not found')` when the community reports
a missing confirmation, or the raw error otherwise; on success the
`.then` logs and calls `manager.doPoll()`.  The final `.catch` only logs
— it does NOT rethrow — so the returned promise always resolves. -/
def acceptConfirmation (id : String) (confErr : Option SteamError) :
    Except ApiError Unit :=
  let inner : Except ApiError Unit :=
    match confErr with
    | some e =>
      if e.message = "Could not find confirmation for object " ++ id then
        .error (.notFound "Confirmation not found")
      else
        .error (.steam e)
    | none => .ok ()
  pcatch (pthen inner (fun _ => .ok ())) (fun _ => .ok ())

/-- Environment for `removeTrade`: the outcome of `manager.getOffer` and
the outcome of `offer.cancel`. -/
structure RemoveEnv where
  getOffer : Except SteamError TradeOfferRaw
  cancelErr : Option SteamError

/-- Outcome record of `removeTrade`: the settled promise and whether
`offer.cancel` was invoked. -/
structure RemoveResult where
  result : Except ApiError TradeOfferMapped
  cancelAttempted : Bool
deriving Repr

/-- `TradesService.removeTrade`: look the offer up (`NoMatch` becomes
`BadRequestException('Trade offer not found')`); reject with
`BadRequestException('Offer is not active')` when
`state === Active && state !== CreatedNeedsConfirmation`; otherwise
cancel, mapping the engine's not-active message to the same
`BadRequestException`, an eresult to `EResultException`, any other error
through; the final logging catch rethrows. -/
def removeTrade (env : RemoveEnv) (id : String) : RemoveResult :=
  match env.getOffer with
  | .error e =>
    if e.message = "NoMatch" then
      ⟨.error (.badRequest "Trade offer not found"), false⟩
    else
      ⟨.error (.steam e), false⟩
  | .ok offer =>
    if offer.state = .Active ∧ offer.state ≠ .CreatedNeedsConfirmation then
      ⟨.error (.badRequest "Offer is not active"), false⟩
    else
      match env.cancelErr with
      | some e =>
        if e.message = "Offer #" ++ offer.id ++
            " is not active, so it may not be cancelled or declined" then
          ⟨.error (.badRequest "Offer is not active"), true⟩
        else
          match e.eresult with
          | some code => ⟨.error (.eresultErr e.message code), true⟩
          | none => ⟨.error (.steam e), true⟩
      | none => ⟨.ok (mapOffer offer), true⟩

/-- Every enum member's numeric value is nonzero, so a non-null
`oldState` is always truthy in the `if (oldState)` test. -/
theorem jsTruthyState_some (s : ETradeOfferState) :
    jsTruthyState (some s) = true := by
  cases s <;> rfl

/-- Claim C1: classification produces exactly one event per the table: a
remote offer with no prior state and state Active yields Received; a
local offer with no prior state and state CreatedNeedsConfirmation
yields Sent; a local offer with no prior state, state Active and empty
items-to-give yields Sent; a local offer with no prior state, state
Active and non-empty items-to-give yields Changed with oldState null;
any offer with a known prior state P different from the current state
yields Changed with oldState P; any other offer with no prior state
yields Changed with oldState null. -/
theorem claim1_classification_table (offer : TradeOfferRaw) :
    (offer.isOurOffer = false → offer.state = .Active →
      classify offer none = .received (mapOffer offer)) ∧
    (offer.isOurOffer = true → offer.state = .CreatedNeedsConfirmation →
      classify offer none = .sent (mapOffer offer)) ∧
    (offer.isOurOffer = true → offer.state = .Active →
      offer.itemsToGive = [] →
      classify offer none = .sent (mapOffer offer)) ∧
    (offer.isOurOffer = true → offer.state = .Active →
      offer.itemsToGive ≠ [] →
      classify offer none = .changed (mapOffer offer) none) ∧
    (∀ p : ETradeOfferState, p ≠ offer.state →
      classify offer (some p) = .changed (mapOffer offer) (some p)) ∧
    (offer.isOurOffer = false → offer.state ≠ .Active →
      classify offer none = .changed (mapOffer offer) none) ∧
    (offer.isOurOffer = true → offer.state ≠ .Active →
      offer.state ≠ .CreatedNeedsConfirmation →
      classify offer none = .changed (mapOffer offer) none) := by
  refine ⟨?_, ?_, ?_, ?_, ?_, ?_, ?_⟩
  · intro hour hst
    simp [classify, jsTruthyState, hour, hst]
  · intro hour hst
    simp [classify, jsTruthyState, hour, hst]
  · intro hour hst hgive
    simp [classify, jsTruthyState, hour, hst, hgive]
  · intro hour hst hgive
    simp [classify, jsTruthyState, hour, hst, List.length_eq_zero, hgive]
  · intro p _
    simp [classify, jsTruthyState_some]
  · intro hour hst
    simp [classify, jsTruthyState, hour, hst]
  · intro hour hst hst2
    simp [classify, jsTruthyState, hour, hst, hst2]

/-- A sample date used by concrete witnesses. -/
def sampleDate : JsDate :=
  ⟨1700000000123⟩

/-- A sample item used by concrete witnesses. -/
def sampleItem : EconItem :=
  ⟨440, "2", "111"⟩

/-- A sample offer builder used by concrete witnesses. -/
def sampleOffer (ours : Bool) (st : ETradeOfferState)
    (give : List EconItem) : TradeOfferRaw :=
  { partner := ⟨"76561198000000001"⟩
    id := "1"
    message := "hello"
    state := st
    itemsToGive := give
    itemsToReceive := [sampleItem]
    isGlitched := false
    isOurOffer := ours
    created := sampleDate
    updated := sampleDate
    expires := sampleDate
    tradeID := none
    fromRealTimeTrade := false
    confirmationMethod := 0
    escrowEnds := none }

/-- Witness for C1 at a concrete input: a remotely-originated active
offer with no prior state classifies as Received. -/
theorem claim1_classification_table_witness :
    classify (sampleOffer false .Active []) none =
      .received (mapOffer (sampleOffer false .Active [])) :=
  (claim1_classification_table (sampleOffer false .Active [])).1 rfl rfl

/-- Claim C9: the published snapshot projects exactly the listed fields,
with timestamps converted to epoch seconds by flooring milliseconds
divided by 1000, and an escrow-end value that is null exactly when the
offer has no escrow end. -/
theorem claim9_projection (offer : TradeOfferRaw) :
    (mapOffer offer).partner = offer.partner.getSteamID64 ∧
    (mapOffer offer).id = offer.id ∧
    (mapOffer offer).message = offer.message ∧
    (mapOffer offer).state = offer.state ∧
    (mapOffer offer).itemsToGive = offer.itemsToGive ∧
    (mapOffer offer).itemsToReceive = offer.itemsToReceive ∧
    (mapOffer offer).isGlitched = offer.isGlitched ∧
    (mapOffer offer).isOurOffer = offer.isOurOffer ∧
    (mapOffer offer).createdAt = Int.fdiv offer.created.getTime 1000 ∧
    (mapOffer offer).updatedAt = Int.fdiv offer.updated.getTime 1000 ∧
    (mapOffer offer).expiresAt = Int.fdiv offer.expires.getTime 1000 ∧
    (mapOffer offer).tradeID = offer.tradeID ∧
    (mapOffer offer).fromRealTimeTrade = offer.fromRealTimeTrade ∧
    (mapOffer offer).confirmationMethod = offer.confirmationMethod ∧
    (mapOffer offer).escrowEndsAt =
      Option.map (fun d => Int.fdiv d.getTime 1000) offer.escrowEnds ∧
    ((mapOffer offer).escrowEndsAt = none ↔ offer.escrowEnds = none) := by
  refine ⟨rfl, rfl, rfl, rfl, rfl, rfl, rfl, rfl, rfl, rfl, rfl, rfl, rfl,
    rfl, ?_, ?_⟩
  · cases h : offer.escrowEnds <;> simp [mapOffer, epochSeconds, h]
  · cases h : offer.escrowEnds <;> simp [mapOffer, epochSeconds, h]

/-- `publishOffer` computed: on channel success the marker is written
and the call reports success; on channel failure the store is untouched
and the failure is swallowed.  (Helper, shared by several claims.) -/
theorem publishOffer_eq (pubOk : Bool) (st : OfferDataMap)
    (offer : TradeOfferRaw) (oldState : Option ETradeOfferState) :
    publishOffer pubOk st offer oldState =
      .ok (if pubOk then
            ⟨setPublished st offer.id offer.state, classify offer oldState,
              true⟩
          else
            ⟨st, classify offer oldState, false⟩) := by
  cases pubOk <;> rfl

/-- Reading the marker back after writing it returns the written state.
(Helper, shared by several claims.) -/
theorem markerOf_setPublished (l : OfferDataMap) (k : String)
    (s : ETradeOfferState) :
    markerOf (setPublished l k s) k = some s := by
  induction l with
  | nil => simp [setPublished, markerOf, alookup]
  | cons hd t ih =>
    obtain ⟨k2, v⟩ := hd
    by_cases h : k2 = k
    · simp [setPublished, h, markerOf, alookup]
    · simpa [setPublished, h, markerOf, alookup] using ih

/-- Claim C3: in both entry points the protocol writes the marker to the
offer's current state exactly when the outward publish succeeds: after
a successful publish a subsequent marker read returns the offer's state,
and on failure the store is left exactly as it was. -/
theorem claim3_publish_then_mark (pubOk : Bool) (st : OfferDataMap)
    (offer : TradeOfferRaw) (oldState : Option ETradeOfferState) :
    ∃ r : PublishResult, publishOffer pubOk st offer oldState = .ok r ∧
      (pubOk = true → r.succeeded = true ∧
        markerOf r.offerData offer.id = some offer.state) ∧
      (pubOk = false → r.succeeded = false ∧ r.offerData = st) := by
  cases pubOk
  case false =>
    refine ⟨⟨st, classify offer oldState, false⟩,
      publishOffer_eq false st offer oldState, ?_, ?_⟩
    · intro h
      exact absurd h (by simp)
    · intro _
      exact ⟨rfl, rfl⟩
  case true =>
    refine ⟨⟨setPublished st offer.id offer.state, classify offer oldState,
      true⟩, publishOffer_eq true st offer oldState, ?_, ?_⟩
    · intro _
      exact ⟨rfl, markerOf_setPublished st offer.id offer.state⟩
    · intro h
      exact absurd h (by simp)

/-- Witness for C3 at a concrete input: publishing a local active offer
with success writes the marker to Active. -/
theorem claim3_publish_then_mark_witness :
    ∃ r : PublishResult,
      publishOffer true [] (sampleOffer true .Active [sampleItem]) none =
        .ok r ∧
      (true = true → r.succeeded = true ∧
        markerOf r.offerData (sampleOffer true .Active [sampleItem]).id =
          some (sampleOffer true .Active [sampleItem]).state) ∧
      (true = false → r.succeeded = false ∧ r.offerData = []) :=
  claim3_publish_then_mark true [] (sampleOffer true .Active [sampleItem])
    none

/-- Claim C6: every live notification handler classifies and publishes
unconditionally — the submitted event is the classification of the
offer and prior state, for every content of the marker store, with no
pre-check — and the marker is written to the offer's current state on
publish success; the prior state passed is null exactly for the
brand-new-offer handler. -/
theorem claim6_live_path (pubOk : Bool) (st st2 : OfferDataMap)
    (offer : TradeOfferRaw) (old : ETradeOfferState) :
    (onNewOffer pubOk st offer = publishOffer pubOk st offer none) ∧
    (onSentOfferChanged pubOk st offer old =
      publishOffer pubOk st offer (some old)) ∧
    (onReceivedOfferChanged pubOk st offer old =
      publishOffer pubOk st offer (some old)) ∧
    (∃ r r2 : PublishResult,
      onNewOffer pubOk st offer = .ok r ∧
      onNewOffer pubOk st2 offer = .ok r2 ∧
      r.attempted = classify offer none ∧
      r2.attempted = r.attempted ∧
      (pubOk = true → markerOf r.offerData offer.id = some offer.state)) ∧
    (∃ r r2 : PublishResult,
      onSentOfferChanged pubOk st offer old = .ok r ∧
      onSentOfferChanged pubOk st2 offer old = .ok r2 ∧
      r.attempted = classify offer (some old) ∧
      r2.attempted = r.attempted ∧
      (pubOk = true → markerOf r.offerData offer.id = some offer.state)) := by
  refine ⟨rfl, rfl, rfl, ?_, ?_⟩
  · cases pubOk
    · exact ⟨⟨st, classify offer none, false⟩,
        ⟨st2, classify offer none, false⟩,
        publishOffer_eq false st offer none,
        publishOffer_eq false st2 offer none, rfl, rfl, fun h => by cases h⟩
    · exact ⟨⟨setPublished st offer.id offer.state, classify offer none,
        true⟩,
        ⟨setPublished st2 offer.id offer.state, classify offer none, true⟩,
        publishOffer_eq true st offer none,
        publishOffer_eq true st2 offer none, rfl, rfl,
        fun _ => markerOf_setPublished st offer.id offer.state⟩
  · cases pubOk
    · exact ⟨⟨st, classify offer (some old), false⟩,
        ⟨st2, classify offer (some old), false⟩,
        publishOffer_eq false st offer (some old),
        publishOffer_eq false st2 offer (some old), rfl, rfl,
        fun h => by cases h⟩
    · exact ⟨⟨setPublished st offer.id offer.state,
        classify offer (some old), true⟩,
        ⟨setPublished st2 offer.id offer.state, classify offer (some old),
          true⟩,
        publishOffer_eq true st offer (some old),
        publishOffer_eq true st2 offer (some old), rfl, rfl,
        fun _ => markerOf_setPublished st offer.id offer.state⟩

/-- Witness for C6 at a concrete input. -/
theorem claim6_live_path_witness :
    (onNewOffer true [] (sampleOffer false .Active []) =
      publishOffer true [] (sampleOffer false .Active []) none) ∧
    (onSentOfferChanged true [] (sampleOffer false .Active [])
        .CreatedNeedsConfirmation =
      publishOffer true [] (sampleOffer false .Active [])
        (some .CreatedNeedsConfirmation)) :=
  ⟨(claim6_live_path true [] [] (sampleOffer false .Active [])
      .CreatedNeedsConfirmation).1,
    (claim6_live_path true [] [] (sampleOffer false .Active [])
      .CreatedNeedsConfirmation).2.1⟩

/-- Claim C7: a publish failure is swallowed in both entry points:
`publishOffer` always resolves, and a sweep records one completed
outcome per enqueued task whatever the engine and channel do, so a
failing publish neither propagates into event dispatch nor stalls the
queue. -/
theorem claim7_failures_swallowed (pubOk : Bool) (st : OfferDataMap)
    (offer : TradeOfferRaw) (oldState : Option ETradeOfferState)
    (env : EngineEnv) (pd : PollData) (ids : List String) :
    (∃ r : PublishResult, publishOffer pubOk st offer oldState = .ok r) ∧
    (processTasks env pd ids).2.length = ids.length := by
  constructor
  · exact ⟨_, publishOffer_eq pubOk st offer oldState⟩
  · induction ids generalizing pd with
    | nil => rfl
    | cons id rest ih =>
      simp only [processTasks]
      cases h : sweepTask env pd id <;> simp [h, ih]

/-- Claim C2: if `ensureOfferPublished` runs twice in sequence for the
same offer with no intervening change to the offer's state (the cheap
poll-data state still matches the offer the engine returns) and the
first invocation's publish succeeds, then the second invocation is a
fast-path no-op: it performs no full offer fetch and no publish, because
the cheap current state equals the stored marker. -/
theorem claim2_idempotent_fast_path (env : EngineEnv) (pd : PollData)
    (id : String) (offer : TradeOfferRaw) (s : ETradeOfferState)
    (r1 : EnsureResult)
    (hget : env.getOffer id = .ok offer) (hid : offer.id = id)
    (hstate : offer.state = s) (hcur : currentStateOf pd id = some s)
    (hpub : env.pubOk id = true)
    (h1 : ensureOfferPublished env pd id = .ok r1)
    (hp1 : r1.published = true) :
    ensureOfferPublished env { pd with offerData := r1.offerData } id =
      .ok ⟨r1.offerData, false, none, false⟩ := by
  subst hid
  subst hstate
  have hod : r1.offerData = setPublished pd.offerData offer.id offer.state := by
    cases hm : markerOf pd.offerData offer.id with
    | none =>
      have hrun : ensureOfferPublished env pd offer.id =
          .ok ⟨setPublished pd.offerData offer.id offer.state, true,
            some (classify offer none), true⟩ := by
        simp [ensureOfferPublished, hcur, hm, getTradeInternal, hget, pthen,
          publishOffer_eq, hpub]
      rw [hrun] at h1
      injection h1 with h
      subst h
      rfl
    | some ps =>
      by_cases hps : offer.state = ps
      · have hrun : ensureOfferPublished env pd offer.id =
            .ok ⟨pd.offerData, false, none, false⟩ := by
          simp [ensureOfferPublished, hcur, hm, hps]
        rw [hrun] at h1
        injection h1 with h
        subst h
        simp at hp1
      · have hrun : ensureOfferPublished env pd offer.id =
            .ok ⟨setPublished pd.offerData offer.id offer.state, true,
              some (classify offer (some ps)), true⟩ := by
          simp [ensureOfferPublished, hcur, hm, hps, getTradeInternal, hget,
            pthen, publishOffer_eq, hpub]
        rw [hrun] at h1
        injection h1 with h
        subst h
        rfl
  have hcur2 : currentStateOf { pd with offerData := r1.offerData } offer.id =
      some offer.state := hcur
  have hm2 : markerOf r1.offerData offer.id = some offer.state := by
    rw [hod]
    exact markerOf_setPublished pd.offerData offer.id offer.state
  simp [ensureOfferPublished, hcur2, hm2]

/-- Concrete offer for the C2 witness: a local active offer, id 1. -/
def offerC2 : TradeOfferRaw :=
  sampleOffer true .Active [sampleItem]

/-- Concrete engine environment for the C2 witness: every fetch returns
the sample offer and every publish succeeds. -/
def envC2 : EngineEnv :=
  ⟨fun _ => .ok offerC2, fun _ => true⟩

/-- Concrete poll data for the C2 witness: offer 1 active on the sent
side, never published before. -/
def pdC2 : PollData :=
  ⟨[("1", .Active)], [], []⟩

/-- The outcome of the first reconciliation in the C2 witness: fetched,
published the changed event, marker written. -/
def r1C2 : EnsureResult :=
  ⟨[("1", ⟨some .Active⟩)], true, some (.changed (mapOffer offerC2) none),
    true⟩

/-- Witness for C2 at a concrete input: after a first successful
reconciliation of offer 1, the second reconciliation is the fast-path
no-op. -/
theorem claim2_idempotent_fast_path_witness :
    ensureOfferPublished envC2 { pdC2 with offerData := r1C2.offerData }
        "1" = .ok ⟨r1C2.offerData, false, none, false⟩ :=
  claim2_idempotent_fast_path envC2 pdC2 "1" offerC2 .Active r1C2 rfl rfl
    rfl rfl rfl rfl rfl

/-- Engine environment in which every offer fetch fails with `NoMatch`
(the id is unknown to the engine). -/
def envNoMatch : EngineEnv :=
  ⟨fun _ => .error ⟨"NoMatch", none⟩, fun _ => true⟩

/-- Counterexample for C4: with empty poll data (no fast path) and an
unknown offer id, the sweep-queue worker `ensureOfferPublished` rejects
— its promise does not resolve — because the full offer fetch fails
with NotFound and nothing inside the worker catches it. -/
theorem claim4_counterexample :
    ensureOfferPublished envNoMatch ⟨[], [], []⟩ "1" =
      .error (.badRequest "Trade offer not found") :=
  rfl

/-- Claim C4 as amended: the worker resolves for every outcome of the
cheap state lookup and the publish attempt provided the full offer
fetch succeeds; a fetch failure rejects the worker promise, and it is
the enqueueing site's catch handler (`push(task).catch(...)`) that
swallows the rejection, so the guarded task promise always resolves and
the sweep queue never stalls. -/
theorem claim4_worker_resolution (env : EngineEnv) (pd : PollData)
    (id : String) (offer : TradeOfferRaw)
    (hget : env.getOffer id = .ok offer) :
    (∃ r : EnsureResult, ensureOfferPublished env pd id = .ok r) ∧
    (∀ (env2 : EngineEnv) (pd2 : PollData) (id2 : String),
      ∃ r : Option EnsureResult, sweepTask env2 pd2 id2 = .ok r) := by
  constructor
  · cases hcs : currentStateOf pd id with
    | none =>
      by_cases hps : some offer.state = markerOf pd.offerData offer.id
      · simp [ensureOfferPublished, hcs, getTradeInternal, hget, pthen, hps]
      · simp [ensureOfferPublished, hcs, getTradeInternal, hget, pthen, hps,
          publishOffer_eq]
    | some cs =>
      cases hm : markerOf pd.offerData id with
      | none =>
        by_cases hps : some offer.state = markerOf pd.offerData offer.id
        · simp [ensureOfferPublished, hcs, hm, getTradeInternal, hget, pthen,
            hps]
        · simp [ensureOfferPublished, hcs, hm, getTradeInternal, hget, pthen,
            hps, publishOffer_eq]
      | some ps =>
        by_cases hcsps : cs = ps
        · simp [ensureOfferPublished, hcs, hm, hcsps]
        · by_cases hps : some offer.state = markerOf pd.offerData offer.id
          · simp [ensureOfferPublished, hcs, hm, hcsps, getTradeInternal,
              hget, pthen, hps]
          · simp [ensureOfferPublished, hcs, hm, hcsps, getTradeInternal,
              hget, pthen, hps, publishOffer_eq]
  · intro env2 pd2 id2
    cases h : ensureOfferPublished env2 pd2 id2 with
    | ok r => exact ⟨some r, by simp [sweepTask, h, pthen, pcatch]⟩
    | error e => exact ⟨none, by simp [sweepTask, h, pthen, pcatch]⟩

/-- Witness for the amended C4 at a concrete input. -/
theorem claim4_worker_resolution_witness :
    (∃ r : EnsureResult, ensureOfferPublished envC2 pdC2 "1" = .ok r) ∧
    (∀ (env2 : EngineEnv) (pd2 : PollData) (id2 : String),
      ∃ r : Option EnsureResult, sweepTask env2 pd2 id2 = .ok r) :=
  claim4_worker_resolution envC2 pdC2 "1" offerC2 rfl

/-- Counterexample for C8: when the community reports a missing
confirmation, `acceptConfirmation` constructs the typed NotFound error
but its final catch only logs — the returned promise resolves instead
of rejecting, contradicting the claim for this operation. -/
theorem claim8_counterexample :
    acceptConfirmation "1"
      (some ⟨"Could not find confirmation for object 1", none⟩) = .ok () :=
  rfl

/-- Claim C8 as amended: `getTrade`, `createTrade` and `removeTrade`
surface NotFound and engine-protocol failures as typed rejections
(`removeTrade`'s final catch rethrows), while `acceptConfirmation` logs
its failure and resolves. -/
theorem claim8_typed_errors (env : EngineEnv) (id : String)
    (e : SteamError) (cenv : CreateEnv) (confErr : Option SteamError) :
    (env.getOffer id = .error e →
      (e.message = "NoMatch" →
        getTrade env id = .error (.badRequest "Trade offer not found")) ∧
      (e.message ≠ "NoMatch" → getTrade env id = .error (.steam e))) ∧
    (cenv.sendErr = some e →
      (e.message = "Cannot send an empty trade offer" →
        createTrade cenv =
          .error (.badRequest "Cannot send an empty trade offer")) ∧
      (∀ code : Nat, e.message ≠ "Cannot send an empty trade offer" →
        e.eresult = some code →
        createTrade cenv = .error (.eresultErr e.message code)) ∧
      (e.message ≠ "Cannot send an empty trade offer" → e.eresult = none →
        createTrade cenv = .error (.steam e))) ∧
    (∃ u : Unit, acceptConfirmation id confErr = .ok u) ∧
    (∀ renv : RemoveEnv, renv.getOffer = .error e →
      (e.message = "NoMatch" →
        (removeTrade renv id).result =
          .error (.badRequest "Trade offer not found")) ∧
      (e.message ≠ "NoMatch" →
        (removeTrade renv id).result = .error (.steam e))) ∧
    (∀ (renv : RemoveEnv) (offer : TradeOfferRaw),
      renv.getOffer = .ok offer → offer.state ≠ .Active →
      renv.cancelErr = some e →
      (e.message = "Offer #" ++ offer.id ++
          " is not active, so it may not be cancelled or declined" →
        (removeTrade renv id).result =
          .error (.badRequest "Offer is not active")) ∧
      (∀ code : Nat, e.message ≠ "Offer #" ++ offer.id ++
          " is not active, so it may not be cancelled or declined" →
        e.eresult = some code →
        (removeTrade renv id).result =
          .error (.eresultErr e.message code)) ∧
      (e.message ≠ "Offer #" ++ offer.id ++
          " is not active, so it may not be cancelled or declined" →
        e.eresult = none →
        (removeTrade renv id).result = .error (.steam e))) := by
  refine ⟨?_, ?_, ?_, ?_, ?_⟩
  · intro hget
    constructor
    · intro hmsg
      simp [getTrade, getTradeInternal, hget, hmsg, pthen, pcatch]
    · intro hmsg
      simp [getTrade, getTradeInternal, hget, hmsg, pthen, pcatch]
  · intro hsend
    refine ⟨?_, ?_, ?_⟩
    · intro hmsg
      simp [createTrade, hsend, hmsg, pthen, pcatch]
    · intro code hmsg hres
      simp [createTrade, hsend, hmsg, hres, pthen, pcatch]
    · intro hmsg hres
      simp [createTrade, hsend, hmsg, hres, pthen, pcatch]
  · cases confErr with
    | none => exact ⟨(), rfl⟩
    | some ce =>
      by_cases hmsg :
          ce.message = "Could not find confirmation for object " ++ id
      · exact ⟨(), by simp [acceptConfirmation, hmsg, pthen, pcatch]⟩
      · exact ⟨(), by simp [acceptConfirmation, hmsg, pthen, pcatch]⟩
  · intro renv hget
    constructor
    · intro hmsg
      simp [removeTrade, hget, hmsg]
    · intro hmsg
      simp [removeTrade, hget, hmsg]
  · intro renv offer hget hst hcancel
    have hguard :
        ¬(offer.state = .Active ∧
          offer.state ≠ .CreatedNeedsConfirmation) :=
      fun hc => hst hc.1
    refine ⟨?_, ?_, ?_⟩
    · intro hmsg
      simp only [removeTrade, hget]
      rw [if_neg hguard]
      simp [hcancel, hmsg]
    · intro code hmsg hres
      simp only [removeTrade, hget]
      rw [if_neg hguard]
      simp [hcancel, hmsg, hres]
    · intro hmsg hres
      simp only [removeTrade, hget]
      rw [if_neg hguard]
      simp [hcancel, hmsg, hres]

/-- Create-trade environment for the C8 witness: the engine reports an
empty-offer error on send. -/
def cenvC8 : CreateEnv :=
  ⟨offerC2, some ⟨"Cannot send an empty trade offer", none⟩⟩

/-- Witness for the amended C8 at a concrete input: an unknown id makes
`getTrade` reject with the typed BadRequest error. -/
theorem claim8_typed_errors_witness :
    getTrade envNoMatch "1" = .error (.badRequest "Trade offer not found") :=
  ((claim8_typed_errors envNoMatch "1" ⟨"NoMatch", none⟩ cenvC8 none).1
    rfl).1 rfl

/-- Claim C10: in `removeTrade` the guard's second conjunct is redundant
— every Active state satisfies it — so every Active offer is rejected
with BadRequestException('Offer is not active') before any cancellation
attempt, and `offer.cancel` is invoked exactly for fetched offers whose
state is not Active. -/
theorem claim10_remove_guard (env : RemoveEnv) (id : String)
    (offer : TradeOfferRaw) (hget : env.getOffer = .ok offer) :
    (∀ s : ETradeOfferState,
      (s = .Active ∧ s ≠ .CreatedNeedsConfirmation) ↔ s = .Active) ∧
    (offer.state = .Active →
      removeTrade env id =
        ⟨.error (.badRequest "Offer is not active"), false⟩) ∧
    ((removeTrade env id).cancelAttempted = true ↔
      offer.state ≠ .Active) := by
  refine ⟨?_, ?_, ?_⟩
  · intro s
    constructor
    · intro h
      exact h.1
    · intro h
      exact ⟨h, by simp [h]⟩
  · intro h
    simp [removeTrade, hget, h]
  · by_cases h : offer.state = .Active
    · simp [removeTrade, hget, h]
    · have hguard :
          ¬(offer.state = .Active ∧
            offer.state ≠ .CreatedNeedsConfirmation) :=
        fun hc => h hc.1
      simp only [removeTrade, hget]
      rw [if_neg hguard]
      cases hce : env.cancelErr with
      | none => simp [h]
      | some ce =>
        by_cases hmsg : ce.message = "Offer #" ++ offer.id ++
            " is not active, so it may not be cancelled or declined"
        · simp [hmsg, h]
        · cases hres : ce.eresult <;> simp [hmsg, hres, h]

/-- Remove-trade environment for the C10 witness: the engine returns an
active offer. -/
def renvC10 : RemoveEnv :=
  ⟨.ok offerC2, none⟩

/-- Witness for C10 at a concrete input: removing an Active offer is
rejected before any cancellation. -/
theorem claim10_remove_guard_witness :
    removeTrade renvC10 "1" =
      ⟨.error (.badRequest "Offer is not active"), false⟩ :=
  (claim10_remove_guard renvC10 "1" offerC2 rfl).2.1 rfl

/-- Scheduler invariant: any pending timer is the stored handle, so the
pending set is empty or the singleton of the stored handle. -/
def schedInv (s : SchedulerState) : Prop :=
  s.pending = [] ∨ ∃ h : Nat, s.handle = some h ∧ s.pending = [h]

/-- From an invariant state, one `ensurePollData` call leaves exactly
the fresh timer pending. (Helper.) -/
theorem ensurePollData_of_inv (s : SchedulerState) (hinv : schedInv s) :
    ensurePollData s = ⟨[s.nextId], some s.nextId, s.nextId + 1⟩ := by
  rcases hinv with h | ⟨h, hh, hp⟩
  · cases hs : s.handle <;> simp [ensurePollData, hs, h]
  · simp [ensurePollData, hh, hp]

/-- The invariant is preserved by `ensurePollData`. (Helper.) -/
theorem schedInv_ensurePollData (s : SchedulerState) (hinv : schedInv s) :
    schedInv (ensurePollData s) := by
  rw [ensurePollData_of_inv s hinv]
  exact Or.inr ⟨s.nextId, rfl, rfl⟩

/-- The invariant is preserved by any number of calls. (Helper.) -/
theorem schedInv_ensurePollDataN (k : Nat) (s : SchedulerState)
    (hinv : schedInv s) : schedInv (ensurePollDataN k s) := by
  induction k generalizing s with
  | zero => exact hinv
  | succ k ih => exact ih (ensurePollData s) (schedInv_ensurePollData s hinv)

/-- From an invariant state, `n + 1` calls leave exactly one pending
timer, the freshest one. (Helper.) -/
theorem ensurePollDataN_succ_of_inv (n : Nat) (s : SchedulerState)
    (hinv : schedInv s) :
    ensurePollDataN (n + 1) s =
      ⟨[s.nextId + n], some (s.nextId + n), s.nextId + n + 1⟩ := by
  induction n generalizing s with
  | zero =>
    simp [ensurePollDataN, ensurePollData_of_inv s hinv]
  | succ n ih =>
    have hstep : ensurePollDataN (n + 2) s =
        ensurePollDataN (n + 1) (ensurePollData s) := rfl
    rw [hstep, ih (ensurePollData s) (schedInv_ensurePollData s hinv),
      ensurePollData_of_inv s hinv]
    have harith : s.nextId + 1 + n = s.nextId + (n + 1) := by omega
    rw [harith]

/-- An invariant state has at most one pending timer. (Helper.) -/
theorem schedInv_length (s : SchedulerState) (hinv : schedInv s) :
    s.pending.length ≤ 1 := by
  rcases hinv with h | ⟨h, _, hp⟩
  · simp [h]
  · simp [hp]

/-- One occurrence per id: under unique keys per side and disjoint
sides, the enumerated sweep ids contain each known id exactly once.
(Helper.) -/
theorem sweepIds_count (pd : PollData)
    (hns : (pd.sent.map Prod.fst).Nodup)
    (hnr : (pd.received.map Prod.fst).Nodup)
    (hdisj : ∀ id ∈ pd.sent.map Prod.fst, id ∉ pd.received.map Prod.fst)
    (id : String) :
    (sweepIds pd).count id =
      if id ∈ pd.sent.map Prod.fst ∨ id ∈ pd.received.map Prod.fst
      then 1 else 0 := by
  rw [sweepIds, List.count_append]
  by_cases hs : id ∈ pd.sent.map Prod.fst
  · have hnotr : id ∉ pd.received.map Prod.fst := hdisj id hs
    rw [List.count_eq_one_of_mem hns hs,
      List.count_eq_zero_of_not_mem hnotr]
    simp [hs]
  · by_cases hr : id ∈ pd.received.map Prod.fst
    · rw [List.count_eq_zero_of_not_mem hs,
        List.count_eq_one_of_mem hnr hr]
      simp [hr]
    · rw [List.count_eq_zero_of_not_mem hs,
        List.count_eq_zero_of_not_mem hr]
      simp [hs, hr]

/-- Claim C5: starting from any invariant scheduler state, N ≥ 1 poll
cycles within the quiet interval leave exactly one pending timer (and at
most one timer is pending after every prefix of calls); firing it is the
only possible sweep, it enqueues the tasks for the concatenated sent and
received id lists — exactly one task per id in the union when the two
sides have unique, disjoint keys — and afterwards no timer is pending,
so no second sweep can fire. -/
theorem claim5_debounce (pd : PollData) (s0 : SchedulerState) (n : Nat)
    (hn : 1 ≤ n) (hinv : schedInv s0)
    (hns : (pd.sent.map Prod.fst).Nodup)
    (hnr : (pd.received.map Prod.fst).Nodup)
    (hdisj : ∀ id ∈ pd.sent.map Prod.fst, id ∉ pd.received.map Prod.fst) :
    (∀ k : Nat, (ensurePollDataN k s0).pending.length ≤ 1) ∧
    ∃ t : Nat, (ensurePollDataN n s0).pending = [t] ∧
      (∀ u : Nat, u ≠ t → fireTimer pd (ensurePollDataN n s0) u = none) ∧
      ∃ s2 : SchedulerState, ∃ tasks : List EnsureOfferPublishedTask,
        fireTimer pd (ensurePollDataN n s0) t = some (s2, tasks) ∧
        s2.pending = [] ∧
        (∀ u : Nat, fireTimer pd s2 u = none) ∧
        tasks = (sweepIds pd).map (fun id => ⟨id⟩) ∧
        (∀ id : String, (sweepIds pd).count id =
          if id ∈ pd.sent.map Prod.fst ∨ id ∈ pd.received.map Prod.fst
          then 1 else 0) := by
  obtain ⟨m, rfl⟩ : ∃ m : Nat, n = m + 1 := ⟨n - 1, by omega⟩
  constructor
  · intro k
    exact schedInv_length _ (schedInv_ensurePollDataN k s0 hinv)
  · refine ⟨s0.nextId + m, ?_, ?_, ?_⟩
    · rw [ensurePollDataN_succ_of_inv m s0 hinv]
    · intro u hu
      rw [ensurePollDataN_succ_of_inv m s0 hinv]
      simp [fireTimer, hu]
    · refine ⟨⟨[], some (s0.nextId + m), s0.nextId + m + 1⟩,
        (sweepIds pd).map (fun id => ⟨id⟩), ?_, rfl, ?_, rfl, ?_⟩
      · rw [ensurePollDataN_succ_of_inv m s0 hinv]
        simp [fireTimer]
      · intro u
        simp [fireTimer]
      · exact sweepIds_count pd hns hnr hdisj

/-- Concrete poll data for the C5 witness: one sent and one received
offer, distinct ids. -/
def pdC5 : PollData :=
  ⟨[("1", .Active)], [("2", .Active)], []⟩

/-- Witness for C5 at a concrete input: three poll cycles from the
initial scheduler state leave exactly timer 2 pending; firing it yields
one task per offer id, and no timer remains pending. -/
theorem claim5_debounce_witness :
    (ensurePollDataN 2 initScheduler).pending.length ≤ 1 ∧
    (ensurePollDataN 3 initScheduler).pending = [2] ∧
    fireTimer pdC5 (ensurePollDataN 3 initScheduler) 2 =
      some (⟨[], some 2, 3⟩, [⟨"1"⟩, ⟨"2"⟩]) ∧
    fireTimer pdC5 (⟨[], some 2, 3⟩ : SchedulerState) 9 = none := by
  obtain ⟨hlen, t, hpend, honly, s2, tasks, hfire, hp2, hnofire, htasks,
    hcount⟩ :=
    claim5_debounce pdC5 initScheduler 3 (by decide) (Or.inl rfl)
      (by decide) (by decide) (by decide)
  refine ⟨hlen 2, by decide, by decide, by decide⟩
